import Mathlib

/-!
Verification development for the PDF annotation flattening pipeline of
`src/services/pdfService.js` (class `PdfService`).

The JavaScript is shallowly embedded: JSON-ish runtime values become the
inductive `JsVal`, machine floats become exact rationals `ℚ` (the inputs the
claims concern are small decimal literals, for which IEEE doubles and exact
rationals agree on every comparison made by the code; where a float-specific
effect matters — e.g. the `t += 0.1` curve-sampling loops — the iteration
count of the IEEE execution is noted and coincides with the exact-rational
one), JavaScript `NaN` becomes `Option.none` where it can arise
(`parseFloat` / `parseInt` results, color channels), and a thrown exception
becomes `Except.error`.
-/

namespace PdfService

/-- A JavaScript runtime value, as far as `pdfService.js` inspects one:
strings, (finite) numbers, arrays, plain objects, `null`, `undefined`,
booleans.  Numbers are modelled as exact rationals. -/
inductive JsVal where
  | vstr (s : String)
  | vnum (q : ℚ)
  | varr (xs : List JsVal)
  | vobj (fields : List (String × JsVal))
  | vnull
  | vundef
  | vbool (b : Bool)

/-- JavaScript truthiness for the values modelled (`NaN` cannot occur as a
`JsVal` literal here; `""`, `0`, `null`, `undefined`, `false` are falsy). -/
def JsVal.truthy : JsVal → Bool
  | .vstr s => !(s = "")
  | .vnum q => !(q = 0)
  | .varr _ => true
  | .vobj _ => true
  | .vnull => false
  | .vundef => false
  | .vbool b => b

/-- One element of the canonical command stream produced by `parseSVGPath`
(line 230): an upper-cased command token, a finite numeric operand, or `NaN`
(a non-numeric operand let through by `parseFloat` in the array/keyed
branches, which do not filter `NaN`). -/
inductive Tok where
  | cmd (s : String)
  | num (q : ℚ)
  | nan
deriving DecidableEq, Repr

/-! ### JavaScript string / number primitives used by the parser -/

/-- Decimal-digit test, written on code points: `'0'` is 48 and `'9'` 57. -/
def isDigitChar (c : Char) : Bool := 48 ≤ c.toNat && c.toNat ≤ 57

/-- Numeric value of a decimal digit (code point minus that of `'0'`). -/
def digitVal (c : Char) : ℕ := c.toNat - 48

/-- Value of a hexadecimal digit, if `c` is one (`a`–`f` are code points
97–102 and `A`–`F` are 65–70). -/
def hexVal (c : Char) : Option ℕ :=
  if 48 ≤ c.toNat && c.toNat ≤ 57 then some (c.toNat - 48)
  else if 97 ≤ c.toNat && c.toNat ≤ 102 then some (c.toNat - 97 + 10)
  else if 65 ≤ c.toNat && c.toNat ≤ 70 then some (c.toNat - 65 + 10)
  else none

/-- Maximal leading run of decimal digits, as a number together with the
digit count and the remaining characters. -/
def takeDigits : List Char → ℕ → ℕ → ℕ × ℕ × List Char
  | c :: rest, acc, n =>
      if isDigitChar c then takeDigits rest (acc * 10 + digitVal c) (n + 1)
      else (acc, n, c :: rest)
  | [], acc, n => (acc, n, [])

/-- Maximal leading run of hexadecimal digits. -/
def takeHexDigits : List Char → ℕ → ℕ → ℕ × ℕ × List Char
  | c :: rest, acc, n =>
      match hexVal c with
      | some v => takeHexDigits rest (acc * 16 + v) (n + 1)
      | none => (acc, n, c :: rest)
  | [], acc, n => (acc, n, [])

/-- Leading sign, if any: returns the sign as `1` or `-1` and the rest. -/
def takeSign : List Char → ℚ × List Char
  | '-' :: rest => (-1, rest)
  | '+' :: rest => (1, rest)
  | cs => (1, cs)

/-- JavaScript `parseFloat` on a character list: optional leading whitespace
and sign, then `digits [. digits] [e[sign]digits]`; trailing garbage is
ignored; `none` models `NaN` (no digits at all).  The special literals
`Infinity`/`-Infinity` have no rational counterpart and are not modelled
(none of the repository's path/color data contains them). -/
def jsParseFloatList (cs : List Char) : Option ℚ :=
  let cs := cs.dropWhile Char.isWhitespace
  let (sgn, cs) := takeSign cs
  let (ip, ipn, cs) := takeDigits cs 0 0
  let (fp, fpn, cs) :=
    match cs with
    | '.' :: rest => takeDigits rest 0 0
    | _ => (0, 0, cs)
  if ipn = 0 ∧ fpn = 0 then none
  else
    let mant : ℚ := sgn * ((ip : ℚ) + (fp : ℚ) / (10 : ℚ) ^ fpn)
    match cs with
    | 'e' :: rest | 'E' :: rest =>
      let (esgn, rest) := takeSign rest
      let (ev, evn, _) := takeDigits rest 0 0
      if evn = 0 then some mant
      else if esgn = 1 then some (mant * (10 : ℚ) ^ ev)
      else some (mant / (10 : ℚ) ^ ev)
    | _ => some mant

def jsParseFloat (s : String) : Option ℚ := jsParseFloatList s.data

/-- JavaScript `parseInt(s)` (radix 10): optional whitespace and sign, then a
maximal run of decimal digits; `none` models `NaN`. -/
def jsParseIntDec (s : String) : Option Int :=
  let cs := s.data.dropWhile Char.isWhitespace
  let (sgn, cs) := takeSign cs
  let (v, n, _) := takeDigits cs 0 0
  if n = 0 then none else some ((if sgn = 1 then 1 else -1) * (v : Int))

/-- JavaScript `parseInt(s, 16)`: optional whitespace and sign, an optional
`0x`/`0X` prefix, then a maximal run of hex digits; `none` models `NaN`. -/
def jsParseIntHex (s : String) : Option Int :=
  let cs := s.data.dropWhile Char.isWhitespace
  let (sgn, cs) := takeSign cs
  let cs := match cs with
    | '0' :: 'x' :: rest => rest
    | '0' :: 'X' :: rest => rest
    | rest => rest
  let (v, n, _) := takeHexDigits cs 0 0
  if n = 0 then none else some ((if sgn = 1 then 1 else -1) * (v : Int))

/-- JavaScript `parseFloat` applied to a `JsVal`, as the array/keyed parser branches do
(line 247 / 270).  A number parses to itself, a string via `jsParseFloat`;
other values coerce to strings that contain no leading number and give
`NaN` (`null`, `undefined`, booleans, plain objects; exotic array
coercions such as `parseFloat([5])` do not occur in path data and are
mapped to `NaN` as well). -/
def jsParseFloatVal : JsVal → Option ℚ
  | .vnum q => some q
  | .vstr s => jsParseFloat s
  | _ => none

/-- Embedding of `String.prototype.toUpperCase` (ASCII letters; path data is ASCII). -/
def jsToUpper (s : String) : String := ⟨s.data.map Char.toUpper⟩

/-! ### `parseSVGPath` (lines 230–320) -/

/-- The numeric operand pushed for one tuple element: `commands.push(parseFloat(pathCommand[i]))`
— `NaN` is pushed as `Tok.nan` (these branches do not filter `NaN`). -/
def operandTok (v : JsVal) : Tok :=
  match jsParseFloatVal v with
  | some q => .num q
  | none => .nan

/-- Process one tuple (`["M", 0, 0]`-style) of the array / keyed-object
branches (lines 241–249 and 264–272): the first element must be a string
(otherwise `command.toUpperCase()` throws a `TypeError`, modelled as
`Except.error`); the remaining elements are pushed through `parseFloat`. -/
def pushTuple (pathCommand : List JsVal) (acc : List Tok) : Except Unit (List Tok) :=
  match pathCommand with
  | [] => .ok acc        -- `pathCommand.length > 0` failed: tuple is skipped
  | first :: rest =>
    match first with
    | .vstr c => .ok (acc ++ (Tok.cmd (jsToUpper c) :: rest.map operandTok))
    | _ => .error ()     -- `command.toUpperCase()` on a non-string throws

/-- The array branch (lines 237–253): elements that are not non-empty arrays
are skipped. -/
def parseArrayBranch : List JsVal → List Tok → Except Unit (List Tok)
  | [], acc => .ok acc
  | pathCommand :: rest, acc =>
    match pathCommand with
    | .varr tuple => do
        let acc ← pushTuple tuple acc
        parseArrayBranch rest acc
    | _ => parseArrayBranch rest acc

/-- Sort comparator of line 260: `(a, b) => parseInt(a) - parseInt(b)`.
When either key fails to parse the comparator yields `NaN`, which the
ECMAScript sort treats as `+0` (elements keep their relative order); with a
stable merge sort that is `le = true`. -/
def keyLe (a b : String) : Bool :=
  match jsParseIntDec a, jsParseIntDec b with
  | some x, some y => x ≤ y
  | _, _ => true

/-- First-match association lookup, `pathData[key]`. -/
def objLookup (fields : List (String × JsVal)) (key : String) : Option JsVal :=
  (fields.find? (fun f => f.1 = key)).map (·.2)

/-- The keyed-object (legacy) branch (lines 256–276): keys sorted as
integers ascending, then each tuple processed as in the array branch. -/
def parseObjectBranch (fields : List (String × JsVal)) : Except Unit (List Tok) := do
  let sortedKeys := (fields.map (·.1)).mergeSort keyLe
  let mut acc : List Tok := []
  for key in sortedKeys do
    match objLookup fields key with
    | some (.varr tuple) => acc ← pushTuple tuple acc
    | _ => pure ()       -- non-array entry: `Array.isArray` check fails, skipped
  return acc

/-- Split the normalized string before every SVG command letter
(`split(/(?=[MLHVCSQTAZ])/i)`, line 284).  A zero-width match at position 0
produces no empty leading token in ECMAScript, and whitespace-only chunks
are removed by the subsequent `.filter(token => token.trim())`. -/
def cmdLetters : List Char :=
  ['M', 'L', 'H', 'V', 'C', 'S', 'Q', 'T', 'A', 'Z',
   'm', 'l', 'h', 'v', 'c', 's', 'q', 't', 'a', 'z']

def splitBeforeCmd : List Char → List Char → List (List Char)
  | [], cur => if cur.isEmpty then [] else [cur]
  | c :: rest, cur =>
      if cmdLetters.contains c && !cur.isEmpty then
        cur :: splitBeforeCmd rest [c]
      else
        splitBeforeCmd rest (cur ++ [c])

/-- Embedding of `token.trim().split(/\s+/)` on an already-trimmed token: whitespace-run
separated parts. -/
def splitWs : List Char → List Char → List (List Char)
  | [], cur => if cur.isEmpty then [] else [cur]
  | c :: rest, cur =>
      if c.isWhitespace then
        if cur.isEmpty then splitWs rest [] else cur :: splitWs rest []
      else splitWs rest (cur ++ [c])

def listTrim (cs : List Char) : List Char :=
  ((cs.dropWhile Char.isWhitespace).reverse.dropWhile Char.isWhitespace).reverse

/-- Collapse every maximal whitespace run into one space (`replace(/\s+/g, ' ')`);
the flag records whether the previous character belonged to a run. -/
def collapseWsAux : List Char → Bool → List Char
  | [], _ => []
  | c :: rest, prevWs =>
      if c.isWhitespace then
        if prevWs then collapseWsAux rest true
        else ' ' :: collapseWsAux rest true
      else c :: collapseWsAux rest false

def collapseWs (cs : List Char) : List Char := collapseWsAux cs false

/-- One token of the string branch (lines 287–313): `parts[0]` is the
command, the rest go through `parseFloat` with `NaN`s filtered out, and only
`M`/`L`/`Q`/`C` consume (2/2/4/6) operands — other command letters are
emitted bare. -/
def pushStrToken (token : List Char) (acc : List Tok) : List Tok :=
  match splitWs (listTrim token) [] with
  | [] => acc            -- cannot happen for a non-blank token; `parts[0]` guard
  | command :: coordParts =>
    let coords := coordParts.filterMap jsParseFloatList
    let cmd := jsToUpper ⟨command⟩
    let acc := acc ++ [Tok.cmd cmd]
    if cmd = "M" ∨ cmd = "L" then
      match coords with
      | x :: y :: _ => acc ++ [.num x, .num y]
      | _ => acc
    else if cmd = "Q" then
      match coords with
      | a :: b :: c :: d :: _ => acc ++ [.num a, .num b, .num c, .num d]
      | _ => acc
    else if cmd = "C" then
      match coords with
      | a :: b :: c :: d :: e :: f :: _ =>
          acc ++ [.num a, .num b, .num c, .num d, .num e, .num f]
      | _ => acc
    else acc

def parseStringBranch (s : String) : List Tok :=
  -- line 281: `pathData.trim().replace(/,/g, ' ').replace(/\s+/g, ' ')`
  let cleaned := collapseWs ((listTrim s.data).map (fun c => if c = ',' then ' ' else c))
  let tokens := (splitBeforeCmd cleaned []).filter (fun t => !(listTrim t).isEmpty)
  tokens.foldl (fun acc t => pushStrToken t acc) []

/-- Embedding of `parseSVGPath` (lines 230–320).  Falsy input returns `[]`; arrays and
keyed objects are decoded tuple-wise (a non-string tuple head throws,
modelled as `Except.error`); strings are tokenized; any other (truthy)
value falls through to the final `return []`. -/
def parseSVGPath (pathData : JsVal) : Except Unit (List Tok) :=
  if !pathData.truthy then .ok []
  else
    match pathData with
    | .varr xs => parseArrayBranch xs []
    | .vobj fields => parseObjectBranch fields
    | .vstr s => .ok (parseStringBranch s)
    | _ => .ok []

/-! ### `parseColor` (lines 659–672) -/

/-- JavaScript `s.slice(a, b)` for `0 ≤ a ≤ b` on an ASCII string. -/
def strSlice (s : String) (a b : ℕ) : String := ⟨(s.data.drop a).take (b - a)⟩

/-- A color channel as computed by `parseColor`: `parseInt(hexPair, 16) / 255`,
where `none` models `NaN` (the hex pair had no parsable digits). -/
def hexChannel (pair : String) : Option ℚ :=
  (jsParseIntHex pair).map (fun v : ℤ => (v : ℚ) / 255)

/-- Embedding of `parseColor` (lines 659–672): strings starting with `#` are read as three
two-character hex slices; everything else defaults to black.  Channels are
`Option ℚ`, `none` standing for JavaScript `NaN`. -/
def parseColor (colorString : String) : Option ℚ × Option ℚ × Option ℚ :=
  match colorString.data with
  | '#' :: hexCs =>       -- `colorString.startsWith('#')`: the first character is `#`
      let hex : String := ⟨hexCs⟩
      (hexChannel (strSlice hex 0 2), hexChannel (strSlice hex 2 4), hexChannel (strSlice hex 4 6))
  | _ => (some 0, some 0, some 0)

/-- The black triple `{r: 0, g: 0, b: 0}` returned for non-`#` input. -/
def blackColor : Option ℚ × Option ℚ × Option ℚ := (some 0, some 0, some 0)

/-! ### pdf-lib drawing primitives (external library, modelled) -/

/-- A validated pdf-lib color. -/
structure Color where
  r : ℚ
  g : ℚ
  b : ℚ
deriving DecidableEq, Repr

/-- pdf-lib's `rgb(r, g, b)`: each channel is checked by `assertRange(v, _, 0, 1)`,
which throws on a `NaN` or out-of-range channel (a `NaN` comparison is
false, so `NaN` fails the range check). -/
def rgbE (r g b : Option ℚ) : Except String Color :=
  match r, g, b with
  | some r, some g, some b =>
      if 0 ≤ r ∧ r ≤ 1 ∧ 0 ≤ g ∧ g ≤ 1 ∧ 0 ≤ b ∧ b ≤ 1 then .ok ⟨r, g, b⟩
      else .error "rgb: channel out of range"
  | _, _, _ => .error "rgb: channel out of range"

/-- One permanent mark committed to a page: the observable effect of
`page.drawText` / `page.drawLine` / `page.drawRectangle` / `page.drawImage`. -/
inductive Mark where
  | text (x y size : ℚ) (color : Color) (s : String)
  | line (x1 y1 x2 y2 thickness : ℚ) (color : Color)
  | rect (x y width height : ℚ) (borderColor : Color) (borderWidth : ℚ)
  | image (x y width height : ℚ) (src : String)
deriving DecidableEq, Repr

/-! ### Annotation objects (wire shape of §6: duck-typed records) -/

/-- An `AnnotationObject` as received on the wire: a `type` discriminator and
optional fields (`none` = the field is absent/`undefined`). -/
structure Ann where
  type : String
  text : Option String := none
  fontSize : Option ℚ := none
  manualScaleX : Option ℚ := none
  manualScaleY : Option ℚ := none
  scaleX : Option ℚ := none
  scaleY : Option ℚ := none
  left : Option ℚ := none
  top : Option ℚ := none
  fill : Option String := none
  stroke : Option String := none
  strokeWidth : Option ℚ := none
  path : Option JsVal := none
  src : Option String := none
  width : Option ℚ := none
  height : Option ℚ := none

/-- JavaScript `a || d` for an optional numeric field: `undefined` and `0` are falsy. -/
def jsOrQ (a : Option ℚ) (d : ℚ) : ℚ :=
  match a with
  | some v => if v = 0 then d else v
  | none => d

/-- JavaScript `a || d` for an optional string field: `undefined` and `""` are falsy. -/
def jsOrS (a : Option String) (d : String) : String :=
  match a with
  | some v => if v = "" then d else v
  | none => d

/-! ### Curve Flattener: `drawSVGPathCommands` (lines 322–517) -/

/-- A point in final draw space. -/
abbrev Pt := ℚ × ℚ

/-- Bounding-box accumulator of lines 335–366: `minX`/`minY` start at
`Infinity` (`⊤`), `maxX`/`maxY` at `-Infinity` (`⊥`). -/
structure BBox where
  minX : WithTop ℚ
  minY : WithTop ℚ
  maxX : WithBot ℚ
  maxY : WithBot ℚ

/-- The bounding-box scan (lines 336–366), which folds `Math.min`/`Math.max`
over the `M`/`L` endpoints and the `Q`/`C` control points and endpoints.
Non-command tokens and command letters other than `M`/`L`/`Q`/`C` are
stepped over.  (On a stream where an `M`/`L`/`Q`/`C` is not followed by its
numeric operands the original reads `undefined` operands and poisons the
box with `NaN`; this embedding steps over the command token instead — every
claim concerns well-formed parser output, where the cases coincide.) -/
def bboxLoop : List Tok → BBox → BBox
  | .cmd "M" :: .num x :: .num y :: rest, b =>
      bboxLoop rest ⟨min b.minX (x : WithTop ℚ), min b.minY (y : WithTop ℚ),
                     max b.maxX (x : WithBot ℚ), max b.maxY (y : WithBot ℚ)⟩
  | .cmd "L" :: .num x :: .num y :: rest, b =>
      bboxLoop rest ⟨min b.minX (x : WithTop ℚ), min b.minY (y : WithTop ℚ),
                     max b.maxX (x : WithBot ℚ), max b.maxY (y : WithBot ℚ)⟩
  | .cmd "Q" :: .num cp1x :: .num cp1y :: .num x :: .num y :: rest, b =>
      bboxLoop rest ⟨min (min b.minX (cp1x : WithTop ℚ)) (x : WithTop ℚ),
                     min (min b.minY (cp1y : WithTop ℚ)) (y : WithTop ℚ),
                     max (max b.maxX (cp1x : WithBot ℚ)) (x : WithBot ℚ),
                     max (max b.maxY (cp1y : WithBot ℚ)) (y : WithBot ℚ)⟩
  | .cmd "C" :: .num cp1x :: .num cp1y :: .num cp2x :: .num cp2y :: .num x :: .num y :: rest, b =>
      bboxLoop rest ⟨min (min (min b.minX (cp1x : WithTop ℚ)) (cp2x : WithTop ℚ)) (x : WithTop ℚ),
                     min (min (min b.minY (cp1y : WithTop ℚ)) (cp2y : WithTop ℚ)) (y : WithTop ℚ),
                     max (max (max b.maxX (cp1x : WithBot ℚ)) (cp2x : WithBot ℚ)) (x : WithBot ℚ),
                     max (max (max b.maxY (cp1y : WithBot ℚ)) (cp2y : WithBot ℚ)) (y : WithBot ℚ)⟩
  | _ :: rest, b => bboxLoop rest b
  | [], b => b

def pathBBox (toks : List Tok) : BBox := bboxLoop toks ⟨⊤, ⊤, ⊥, ⊥⟩

/-- The per-coordinate map of the flattener as the source writes it in each
of the `M`/`L`/`Q`/`C` branches (lines 394–399, 412–417, 432–441, 464–477):
`relative = (p - min) * scale`, then `x = objectLeft + relativeX`,
`y = pageHeight - (objectTop + relativeY)`. -/
def codeTransform (objectLeft objectTop scaleX scaleY minX minY pageHeight : ℚ)
    (px py : ℚ) : Pt :=
  let relativeX := (px - minX) * scaleX
  let relativeY := (py - minY) * scaleY
  (objectLeft + relativeX, pageHeight - (objectTop + relativeY))

/-- The quadratic sampling parameters of the loop
`for (let t = 0.1; t <= 1; t += 0.1)` (line 444): in exact arithmetic the
loop body runs for `t = 0.1, 0.2, …, 1.0`.  (The IEEE-double execution also
runs exactly 10 iterations, its last `t` being `1 - 2⁻⁵³`-close to 1.) -/
def qTs : List ℚ := (List.range 10).map (fun k => ((k : ℚ) + 1) / 10)

/-- The cubic sampling parameters of `for (let t = 0; t <= 1; t += 0.1)`
(line 480): `t = 0, 0.1, …, 1.0`, 11 values (the IEEE-double execution also
runs exactly 11 iterations). -/
def cTs : List ℚ := (List.range 11).map (fun k => (k : ℚ) / 10)

/-- Points appended for one `Q` command (lines 444–448): the quadratic
Bezier blend of the current point, the transformed control point and the
transformed endpoint, at each `t` of `qTs`. -/
def qPoints (currentX currentY cpx cpy x y : ℚ) : List Pt :=
  qTs.map (fun t =>
    ((1 - t) * (1 - t) * currentX + 2 * (1 - t) * t * cpx + t * t * x,
     (1 - t) * (1 - t) * currentY + 2 * (1 - t) * t * cpy + t * t * y))

/-- Points appended for one `C` command (lines 480–490): the cubic Bezier
blend at each `t` of `cTs`. -/
def cPoints (currentX currentY cp1x cp1y cp2x cp2y x y : ℚ) : List Pt :=
  cTs.map (fun t =>
    ((1 - t) ^ 3 * currentX + 3 * (1 - t) ^ 2 * t * cp1x
       + 3 * (1 - t) * t ^ 2 * cp2x + t ^ 3 * x,
     (1 - t) ^ 3 * currentY + 3 * (1 - t) ^ 2 * t * cp1y
       + 3 * (1 - t) * t ^ 2 * cp2y + t ^ 3 * y))

/-- The segment-collection loop (lines 372–508), parameterized by the
per-coordinate map `trans` that each command branch applies to its operand
pairs.  `cur` is `currentSegment`, `(cx, cy)` is `(currentX, currentY)`
(initially `(0, 0)`, lines 374–375).  `M` flushes the open segment and
starts a new one; `L` appends one transformed point; `Q`/`C` append their
sampled blends; `Z` re-appends the segment's first point; any other token
is stepped over (see the note on `bboxLoop` about malformed streams). -/
def flattenLoop (trans : ℚ → ℚ → Pt) :
    List Tok → List Pt → ℚ → ℚ → List (List Pt)
  | .cmd "M" :: .num px :: .num py :: rest, cur, _, _ =>
      let p := trans px py
      (if cur.isEmpty then [] else [cur]) ++ flattenLoop trans rest [p] p.1 p.2
  | .cmd "L" :: .num px :: .num py :: rest, cur, _, _ =>
      let p := trans px py
      flattenLoop trans rest (cur ++ [p]) p.1 p.2
  | .cmd "Q" :: .num pcpx :: .num pcpy :: .num px :: .num py :: rest, cur, cx, cy =>
      let cp := trans pcpx pcpy
      let p := trans px py
      flattenLoop trans rest (cur ++ qPoints cx cy cp.1 cp.2 p.1 p.2) p.1 p.2
  | .cmd "C" :: .num pcp1x :: .num pcp1y :: .num pcp2x :: .num pcp2y :: .num px :: .num py :: rest,
      cur, cx, cy =>
      let cp1 := trans pcp1x pcp1y
      let cp2 := trans pcp2x pcp2y
      let p := trans px py
      flattenLoop trans rest (cur ++ cPoints cx cy cp1.1 cp1.2 cp2.1 cp2.2 p.1 p.2) p.1 p.2
  | .cmd "Z" :: rest, cur, cx, cy =>
      flattenLoop trans rest (cur ++ (if h : cur ≠ [] then [cur.head h] else [])) cx cy
  | _ :: rest, cur, cx, cy => flattenLoop trans rest cur cx cy
  | [], cur, _, _ => if cur.isEmpty then [] else [cur]

/-- Helper `WithTop`-elimination: the finite value, or `d` for `⊤`.  In the original,
a stream with no coordinate-bearing command leaves `minX = Infinity`; such a
stream also yields no points, so the default is never observed. -/
def unTop (d : ℚ) : WithTop ℚ → ℚ
  | (q : ℚ) => q
  | ⊤ => d

/-- Embedding of `pathSegments` as collected by `drawSVGPathCommands` (lines 322–508):
per-object scale and offset with `||` defaults (lines 324–327), the
bounding-box minimum, then the command loop with the source's coordinate
map. -/
def flattenPath (toks : List Tok) (pathData : Ann) (pageHeight : ℚ) : List (List Pt) :=
  let scaleX := jsOrQ pathData.scaleX 1
  let scaleY := jsOrQ pathData.scaleY 1
  let objectLeft := jsOrQ pathData.left 0
  let objectTop := jsOrQ pathData.top 0
  let b := pathBBox toks
  flattenLoop
    (codeTransform objectLeft objectTop scaleX scaleY (unTop 0 b.minX) (unTop 0 b.minY) pageHeight)
    toks [] 0 0

/-! ### Annotation Renderer (lines 147–657) -/

/-- The rendered font size of `addTextToPage` (lines 149–162):
`baseFontSize = fontSize || 20`, per-axis scale with the fallback chain
`manualScaleX || scaleX || 1`, the average scale, and the `[6, 72]` clamp
`Math.max(6, Math.min(72, ·))`. -/
def actualFontSize (textData : Ann) : ℚ :=
  let baseFontSize := jsOrQ textData.fontSize 20
  let scaleX := jsOrQ textData.manualScaleX (jsOrQ textData.scaleX 1)
  let scaleY := jsOrQ textData.manualScaleY (jsOrQ textData.scaleY 1)
  let averageScale := (scaleX + scaleY) / 2
  max 6 (min 72 (baseFontSize * averageScale))

/-- Embedding of `addTextToPage` (lines 147–191).  Empty or whitespace-only text is a
no-op; otherwise one text mark at `(left, pageHeight - top - size*0.87)`.
`rgb(color.r, color.g, color.b)` is evaluated when the `drawText` options
are built and can throw (a `NaN` channel from a malformed `#`-color); the
function's own `catch` re-throws (line 189), so the error propagates. -/
def addTextToPage (textData : Ann) (pageHeight : ℚ) : Except String (List Mark) :=
  let actualSize := actualFontSize textData
  let color := parseColor (jsOrS textData.fill "#000000")
  let text := jsOrS textData.text ""
  if (listTrim text.data).isEmpty then .ok []
  else do
    let x := jsOrQ textData.left 0
    let y := pageHeight - jsOrQ textData.top 0 - actualSize * (87 / 100)
    let c ← rgbE color.1 color.2.1 color.2.2
    .ok [.text x y actualSize c text]

/-- Embedding of `drawPathSegment` (lines 519–536): one `drawLine` per consecutive point
pair. -/
def segmentMarks (points : List Pt) (color : Color) (strokeWidth : ℚ) : List Mark :=
  (points.zip points.tail).map (fun pq => .line pq.1.1 pq.1.2 pq.2.1 pq.2.2 strokeWidth color)

/-- Embedding of `drawSVGPathCommands` (lines 322–517): builds the color object
(`rgb(...)`, line 369, which can throw), collects the path segments, and
draws every segment with at least two points. -/
def drawSVGPathCommands (toks : List Tok) (pathData : Ann) (pageHeight : ℚ)
    (color : Option ℚ × Option ℚ × Option ℚ) (strokeWidth : ℚ) : Except String (List Mark) := do
  let colorObj ← rgbE color.1 color.2.1 color.2.2
  let pathSegments := flattenPath toks pathData pageHeight
  .ok ((pathSegments.filter (fun s => 1 < s.length)).flatMap
        (fun s => segmentMarks s colorObj strokeWidth))

/-- Embedding of `renderPathBoundingBox` (lines 538–564): an outline rectangle from the
declared `width × height × scaleX × scaleY` footprint, drawn only when
`left`/`top` are present and the footprint is positive.  The border color
goes through `rgb(...)`, which can throw. -/
def renderPathBoundingBox (pathData : Ann) (pageHeight : ℚ)
    (color : Option ℚ × Option ℚ × Option ℚ) (strokeWidth : ℚ) : Except String (List Mark) :=
  let actualWidth := jsOrQ pathData.width 0 * jsOrQ pathData.scaleX 1
  let actualHeight := jsOrQ pathData.height 0 * jsOrQ pathData.scaleY 1
  if pathData.left ≠ none ∧ pathData.top ≠ none ∧ 0 < actualWidth ∧ 0 < actualHeight then do
    let c ← rgbE color.1 color.2.1 color.2.2
    let x := (pathData.left).getD 0
    let y := pageHeight - (pathData.top).getD 0 - actualHeight
    .ok [.rect x y actualWidth actualHeight c (max 1 strokeWidth)]
  else .ok []

/-- Embedding of `renderSVGPath` (lines 216–228): parse and draw; on any exception fall
back to the bounding box (whose own exception, if any, propagates to
`addPathToPage`). -/
def renderSVGPath (pathData : Ann) (pageHeight : ℚ)
    (color : Option ℚ × Option ℚ × Option ℚ) (strokeWidth : ℚ) : Except String (List Mark) :=
  let attempt : Except String (List Mark) := do
    let pathCommands ← (parseSVGPath (pathData.path.getD .vundef)).mapError
      (fun _ => "TypeError: command.toUpperCase is not a function")
    drawSVGPathCommands pathCommands pathData pageHeight color strokeWidth
  match attempt with
  | .ok marks => .ok marks
  | .error _ => renderPathBoundingBox pathData pageHeight color strokeWidth

/-- The guard of lines 200–203: `pathData.path` is truthy and is either a
non-empty string or an object (arrays included) with at least one key. -/
def pathHasData : Option JsVal → Bool
  | some v =>
      v.truthy &&
      (match v with
       | .vstr s => !(s = "")
       | .varr xs => !xs.isEmpty
       | .vobj fields => !fields.isEmpty
       | _ => false)
  | none => false

/-- Embedding of `addPathToPage` (lines 193–214): dispatch to the SVG renderer or the
bounding-box fallback; its own `catch` absorbs any error (line 210–213),
so a path annotation never throws. -/
def addPathToPage (pathData : Ann) (pageHeight : ℚ) : List Mark :=
  let color := parseColor (jsOrS pathData.stroke "#000000")
  let strokeWidth := jsOrQ pathData.strokeWidth 2
  let r :=
    if pathHasData pathData.path then
      renderSVGPath pathData pageHeight color strokeWidth
    else
      renderPathBoundingBox pathData pageHeight color strokeWidth
  match r with
  | .ok marks => marks
  | .error _ => []

/-- The placement computed by `addImageToPage` (lines 570–584):
`(adjustedX, adjustedY, actualWidth, actualHeight)` with
`adjustedX = Math.max(0, Math.min(x, pageWidth - actualWidth))` and the
y-axis analogue. -/
def imagePlacement (imageData : Ann) (pageWidth pageHeight : ℚ) : ℚ × ℚ × ℚ × ℚ :=
  let actualWidth := jsOrQ imageData.width 120 * jsOrQ imageData.scaleX 1
  let actualHeight := jsOrQ imageData.height 60 * jsOrQ imageData.scaleY 1
  let x := jsOrQ imageData.left 0
  let y := pageHeight - jsOrQ imageData.top 0 - actualHeight
  (max 0 (min x (pageWidth - actualWidth)), max 0 (min y (pageHeight - actualHeight)),
   actualWidth, actualHeight)

/-- Embedding of `renderSignaturePlaceholder` (lines 632–657): a fixed-color rectangle
plus a `SIGNATURE` caption when its computed font size exceeds 6. -/
def renderSignaturePlaceholder (x y width height : ℚ) : List Mark :=
  let fontSize := min 10 (min (height / 3) (width / 8))
  [Mark.rect x y width height ⟨4/10, 4/10, 8/10⟩ 1] ++
    (if 6 < fontSize then
      [Mark.text (x + 5) (y + height / 2 - fontSize / 2) fontSize ⟨4/10, 4/10, 8/10⟩ "SIGNATURE"]
    else [])

/-- Embedding of `addImageToPage` (lines 566–598).  A `data:image/` source is decoded and
drawn by pdf-lib (`embedPng`/`embedJpg`, abstracted here as succeeding; on a
decode failure the original falls back to the placeholder, a case no claim
touches); otherwise the placeholder is drawn.  Its own `catch` absorbs
errors, so an image annotation never throws. -/
def addImageToPage (imageData : Ann) (pageWidth pageHeight : ℚ) : List Mark :=
  let p := imagePlacement imageData pageWidth pageHeight
  let src := jsOrS imageData.src ""
  if src.startsWith "data:image/" then
    [Mark.image p.1 p.2.1 p.2.2.1 p.2.2.2 src]
  else
    renderSignaturePlaceholder p.1 p.2.1 p.2.2.1 p.2.2.2

/-! ### Page Flattening Orchestrator: `addAnnotationsToPage` (lines 125–145) -/

/-- The per-annotation dispatch of lines 130–139: `i-text` can throw
(`addTextToPage` re-throws), `path` and `image` absorb their own errors,
and unknown types are ignored. -/
def renderObjData (objData : Ann) (pageWidth pageHeight : ℚ) : Except String (List Mark) :=
  if objData.type = "i-text" then addTextToPage objData pageHeight
  else if objData.type = "path" then .ok (addPathToPage objData pageHeight)
  else if objData.type = "image" then .ok (addImageToPage objData pageWidth pageHeight)
  else .ok []

/-- Embedding of `addAnnotationsToPage` (lines 125–145): iterate the page's annotations
in order; the `try`/`catch` around each one logs and continues, so a
throwing annotation contributes nothing and the loop never aborts. -/
def addAnnotationsToPage (pageWidth pageHeight : ℚ) (pageObjects : List Ann) : List Mark :=
  pageObjects.foldl
    (fun acc objData =>
      match renderObjData objData pageWidth pageHeight with
      | .ok marks => acc ++ marks
      | .error _ => acc)
    []

/-! ### Document store: `loadPdf` / `savePdfWithChanges` (lines 25–123)

The temp directory is modelled as a map from file name (relative to
`tempDir`) to contents; `fs.stat` succeeds exactly on present names (all
entries are regular files) and `fs.readFile` of a present name succeeds.
pdf-lib's `PDFDocument.load` / `save` are abstract parameters: a document
is its list of pages, each a size plus the marks committed so far. -/

abbrev Bytes := List ℕ

structure Fs where
  files : List (String × Bytes)
deriving DecidableEq, Repr

def Fs.lookup (fs : Fs) (p : String) : Option Bytes :=
  (fs.files.find? (fun f => f.1 = p)).map (·.2)

/-- Node `fs.writeFile`: create or overwrite. -/
def Fs.write (fs : Fs) (p : String) (b : Bytes) : Fs :=
  ⟨(p, b) :: fs.files.filter (fun f => !(f.1 = p))⟩

/-- Embedding of `loadPdf` (lines 25–43): stat `{fileId}_filled.pdf` and read it when it
exists; on `ENOENT` fall through and read `{fileId}.pdf` (whose own
`ENOENT`, if any, propagates). -/
def loadPdf (fs : Fs) (fileId : String) : Except String Bytes :=
  match fs.lookup (fileId ++ "_filled.pdf") with
  | some b => .ok b
  | none =>
    match fs.lookup (fileId ++ ".pdf") with
    | some b => .ok b
    | none => .error "ENOENT"

structure Page where
  width : ℚ
  height : ℚ
  marks : List Mark
deriving DecidableEq, Repr

abbrev Doc := List Page

/-- Embedding of `pdfDoc.getPage(i)` (line 108): throws when the index is out of range. -/
def getPage (d : Doc) (i : Int) : Except String Page :=
  if h : 0 ≤ i ∧ i.toNat < d.length then .ok (d.get ⟨i.toNat, h.2⟩)
  else .error "getPage: index out of range"

def setPage (d : Doc) (i : Int) (p : Page) : Doc :=
  d.set i.toNat p

/-- The wire shape of §6 consumed by the orchestrator: pages keyed by page
number strings. -/
structure Mods where
  pages : List (String × List Ann)

/-- The page loop of lines 100–110: empty entries are skipped; the page
number is `parseInt(pageNumStr)` (a non-numeric key makes `getPage(NaN - 1)`
throw); annotations are flattened onto the (1-indexed) page. -/
def processPages (d : Doc) : List (String × List Ann) → Except String Doc
  | [] => .ok d
  | (pageNumStr, pageObjects) :: rest =>
    if pageObjects.isEmpty then processPages d rest
    else do
      let pageNum ← match jsParseIntDec pageNumStr with
        | some n => .ok n
        | none => .error "getPage: index out of range"
      let page ← getPage d (pageNum - 1)
      let marks := addAnnotationsToPage page.width page.height pageObjects
      processPages (setPage d (pageNum - 1) { page with marks := page.marks ++ marks }) rest

/-- Embedding of `savePdfWithChanges` (lines 78–123), parameterized by pdf-lib's
document codec: read the current bytes (`loadPdf`), parse them
(`PDFDocument.load`; a failure is wrapped and re-thrown, lines 89–95),
apply the page loop, serialize, and only then write `{fileId}_filled.pdf`.
Any error is re-thrown by the outer `catch` (lines 119–122), and the write
never happens on an error path. -/
def savePdfWithChanges (loadDoc : Bytes → Except String Doc) (saveDoc : Doc → Bytes)
    (fs : Fs) (fileId : String) (mods : Mods) : Except String (Fs × String) := do
  let existingPdfBytes ← loadPdf fs fileId
  let pdfDoc ← (loadDoc existingPdfBytes).mapError
    (fun m => "Unable to process PDF: " ++ m)
  let pdfDoc ← processPages pdfDoc mods.pages
  let modifiedPdfBytes := saveDoc pdfDoc
  let fs' := fs.write (fileId ++ "_filled.pdf") modifiedPdfBytes
  .ok (fs', fileId ++ "_filled")

/-! ### Spec-side formulations (written from `spec.md` §4.3, for claim C1) -/

/-- Modelled from the spec (§4.3 step 1): the coordinates the bounding box
ranges over — "all move/line/curve endpoints and control points" of the
canonical stream, in order.  Traversal shape matches `bboxLoop`. -/
def coordPoints : List Tok → List Pt
  | .cmd "M" :: .num x :: .num y :: rest => (x, y) :: coordPoints rest
  | .cmd "L" :: .num x :: .num y :: rest => (x, y) :: coordPoints rest
  | .cmd "Q" :: .num cp1x :: .num cp1y :: .num x :: .num y :: rest =>
      (cp1x, cp1y) :: (x, y) :: coordPoints rest
  | .cmd "C" :: .num cp1x :: .num cp1y :: .num cp2x :: .num cp2y :: .num x :: .num y :: rest =>
      (cp1x, cp1y) :: (cp2x, cp2y) :: (x, y) :: coordPoints rest
  | _ :: rest => coordPoints rest
  | [] => []

/-- Modelled from the spec (§4.3 step 1): the bounding-box minimum `minX`
as the minimum over all endpoint and control-point x-coordinates. -/
def specMinX (toks : List Tok) : WithTop ℚ :=
  ((coordPoints toks).map Prod.fst).foldl (fun a q => min a (q : WithTop ℚ)) ⊤

/-- Modelled from the spec (§4.3 step 1): the bounding-box minimum `minY`. -/
def specMinY (toks : List Tok) : WithTop ℚ :=
  ((coordPoints toks).map Prod.snd).foldl (fun a q => min a (q : WithTop ℚ)) ⊤

/-- Modelled from the spec (§4.3 step 2): the uniform coordinate map
`x = objectLeft + (px - minX) * scaleX`,
`y = pageHeight - (objectTop + (py - minY) * scaleY)`. -/
def specTransform (objectLeft objectTop scaleX scaleY minX minY pageHeight : ℚ)
    (px py : ℚ) : Pt :=
  (objectLeft + (px - minX) * scaleX, pageHeight - (objectTop + (py - minY) * scaleY))

/-- The flattener with the spec's bounding box and the spec's uniform
per-coordinate map applied to every `M`/`L`/`Q`/`C` operand pair (control
points included). -/
def specFlattenPath (toks : List Tok) (pathData : Ann) (pageHeight : ℚ) : List (List Pt) :=
  let scaleX := jsOrQ pathData.scaleX 1
  let scaleY := jsOrQ pathData.scaleY 1
  let objectLeft := jsOrQ pathData.left 0
  let objectTop := jsOrQ pathData.top 0
  flattenLoop
    (specTransform objectLeft objectTop scaleX scaleY
      (unTop 0 (specMinX toks)) (unTop 0 (specMinY toks)) pageHeight)
    toks [] 0 0

/-! ### Concrete inputs used by the theorems below -/

/-- The canonical stream for `M 0 0 L 10 10` in all three dialects. -/
def canonicalMLStream : List Tok :=
  [.cmd "M", .num 0, .num 0, .cmd "L", .num 10, .num 10]

/-- A quadratic from `(0,0)` to `(10,0)` with control point `(5,10)`. -/
def quadStream : List Tok :=
  [.cmd "M", .num 0, .num 0, .cmd "Q", .num 5, .num 10, .num 10, .num 0]

/-- The marks of a possibly-throwing render step, as the orchestrator's
`try`/`catch` sees them: a thrown annotation contributes nothing. -/
def okMarks : Except String (List Mark) → List Mark
  | .ok marks => marks
  | .error _ => []

/-- The font size recorded in a text mark. -/
def markSize : Mark → Option ℚ
  | .text _ _ size _ _ => some size
  | _ => none

/-- A well-formed text annotation. -/
def annGood1 : Ann := { type := "i-text", text := some "first" }

/-- A text annotation whose malformed fill color makes `rgb(...)` throw
while it is being rendered. -/
def annBad2 : Ann := { type := "i-text", text := some "bad", fill := some "#zzzzzz" }

/-- Another well-formed text annotation. -/
def annGood3 : Ann := { type := "i-text", text := some "third" }

/-- Font size at the upper clamp: `baseFontSize = 100`, manual scales 1. -/
def tdMax : Ann :=
  { type := "i-text", fontSize := some 100, manualScaleX := some 1, manualScaleY := some 1 }

/-- Font size at the lower clamp: `baseFontSize = 1`. -/
def tdMin : Ann := { type := "i-text", fontSize := some 1 }

/-- A text annotation with distinct manual scales, for instantiating the
font-size formula. -/
def tdW : Ann :=
  { type := "i-text", text := some "hi", fontSize := some 30,
    manualScaleX := some 2, manualScaleY := some 4 }

/-- Validity of a modification's page keys against a document: every
non-empty page entry has a key parsing to an in-range 1-indexed page
number.  (The annotations themselves are unconstrained — per-annotation
failures are absorbed by the orchestrator.) -/
def pagesValidFor (d : Doc) (pages : List (String × List Ann)) : Prop :=
  ∀ p ∈ pages, p.2.isEmpty = false →
    ∃ n : Int, jsParseIntDec p.1 = some n ∧ 0 ≤ n - 1 ∧ (n - 1).toNat < d.length

/-- An image annotation whose footprint (200 wide) exceeds the page
(100 wide), placed at `left = pageWidth`. -/
def ceImage : Ann := { type := "image", width := some 200, left := some 100 }

/-- An image annotation that fits the page (50 wide), placed at
`left = pageWidth`. -/
def wImage : Ann := { type := "image", width := some 50, left := some 100 }

/-! ### Theorems -/

theorem bboxLoop_minX (toks : List Tok) : ∀ b : BBox,
    (bboxLoop toks b).minX =
      ((coordPoints toks).map Prod.fst).foldl (fun a q => min a (q : WithTop ℚ)) b.minX := by
  induction toks using coordPoints.induct with
  | _ => intro b; simp [bboxLoop, coordPoints, *]

theorem bboxLoop_minY (toks : List Tok) : ∀ b : BBox,
    (bboxLoop toks b).minY =
      ((coordPoints toks).map Prod.snd).foldl (fun a q => min a (q : WithTop ℚ)) b.minY := by
  induction toks using coordPoints.induct with
  | _ => intro b; simp [bboxLoop, coordPoints, *]

/-- C1: for every path annotation and canonical stream, the Curve Flattener
(`drawSVGPathCommands`) equals the spec's formulation: first the bounding-box
minimum `(minX, minY)` over all `M`/`L`/`Q`/`C` endpoints and control
points, then the uniform map `x = objectLeft + (px - minX) * scaleX`,
`y = pageHeight - (objectTop + (py - minY) * scaleY)` applied to every
coordinate pair of the stream — for `M`, `L`, `Q` and `C` alike, control
points included. -/
theorem claim_C1 (toks : List Tok) (pathData : Ann) (pageHeight : ℚ) :
    flattenPath toks pathData pageHeight = specFlattenPath toks pathData pageHeight := by
  simp only [flattenPath, specFlattenPath, pathBBox, specMinX, specMinY,
    bboxLoop_minX, bboxLoop_minY]
  rfl

/-- C2: the SVG string `"M 0 0 L 10 10"`, the array-tuple form
`[["M",0,0],["L",10,10]]` and the legacy keyed form
`{"1":["L",10,10],"0":["M",0,0]}` all parse to the same canonical stream
`["M",0,0,"L",10,10]`; the keyed form's tuples are recovered by sorting the
keys as integers ascending (the keyed input below lists key `"1"` before
`"0"`, yet `M` comes out first). -/
theorem claim_C2 :
    parseSVGPath (.vstr "M 0 0 L 10 10") = .ok canonicalMLStream ∧
    parseSVGPath (.varr [.varr [.vstr "M", .vnum 0, .vnum 0],
                         .varr [.vstr "L", .vnum 10, .vnum 10]]) = .ok canonicalMLStream ∧
    parseSVGPath (.vobj [("1", .varr [.vstr "L", .vnum 10, .vnum 10]),
                         ("0", .varr [.vstr "M", .vnum 0, .vnum 0])]) = .ok canonicalMLStream := by
  refine ⟨?_, ?_, ?_⟩
  · simp +decide [parseSVGPath, JsVal.truthy, parseStringBranch, collapseWs, collapseWsAux,
      listTrim, splitBeforeCmd, splitWs, cmdLetters, pushStrToken, jsParseFloatList,
      takeSign, takeDigits, isDigitChar, digitVal, jsToUpper, canonicalMLStream]
  · simp +decide [parseSVGPath, JsVal.truthy, parseArrayBranch, pushTuple, operandTok,
      jsParseFloatVal, jsToUpper, canonicalMLStream]
    rfl
  · simp +decide [parseSVGPath, JsVal.truthy, parseObjectBranch, keyLe, jsParseIntDec,
      takeSign, takeDigits, isDigitChar, digitVal, objLookup, pushTuple, operandTok,
      jsParseFloatVal, jsToUpper, canonicalMLStream, List.mergeSort]
    rfl

/-- C3: each `Q` command appends exactly 10 points to the current polyline
(the sampling parameters `t = 0.1, …, 1.0`) and each `C` command appends
exactly 11 (`t = 0, 0.1, …, 1.0`); the quadratic from `(0,0)` to `(10,0)`
with control `(5,10)` under the identity transform and `pageHeight = 0`
flattens to a single polyline of exactly 11 points (the move point plus 10
samples). -/
theorem claim_C3 :
    (∀ cx cy cpx cpy x y : ℚ, (qPoints cx cy cpx cpy x y).length = 10) ∧
    (∀ cx cy c1x c1y c2x c2y x y : ℚ, (cPoints cx cy c1x c1y c2x c2y x y).length = 11) ∧
    (flattenPath quadStream { type := "path" } 0).length = 1 ∧
    ((flattenPath quadStream { type := "path" } 0).headD []).length = 11 := by
  refine ⟨fun _ _ _ _ _ _ => rfl, fun _ _ _ _ _ _ _ _ => rfl, ?_⟩
  constructor <;> simp +decide [flattenPath, flattenLoop, quadStream, qPoints, qTs]

/-- C8: empty, `null`, or unrecognized-type path input — including `""`,
`null`, `{}` and `[]`, as well as numbers, booleans and `undefined` —
parses to the empty canonical sequence without an exception (`Except.ok`). -/
theorem claim_C8 :
    parseSVGPath (.vstr "") = .ok [] ∧
    parseSVGPath .vnull = .ok [] ∧
    parseSVGPath (.vobj []) = .ok [] ∧
    parseSVGPath (.varr []) = .ok [] ∧
    parseSVGPath .vundef = .ok [] ∧
    (∀ q : ℚ, parseSVGPath (.vnum q) = .ok []) ∧
    (∀ b : Bool, parseSVGPath (.vbool b) = .ok []) := by
  refine ⟨?_, ?_, ?_, ?_, ?_, ?_, ?_⟩
  · simp +decide [parseSVGPath, JsVal.truthy]
  · simp +decide [parseSVGPath, JsVal.truthy]
  · simp +decide [parseSVGPath, JsVal.truthy, parseObjectBranch, List.mergeSort]
    rfl
  · simp +decide [parseSVGPath, JsVal.truthy, parseArrayBranch]
  · simp +decide [parseSVGPath, JsVal.truthy]
  · intro q
    by_cases h : q = 0 <;> simp [parseSVGPath, JsVal.truthy, h]
  · intro b
    cases b <;> simp [parseSVGPath, JsVal.truthy]

theorem addAnnFold (pageWidth pageHeight : ℚ) (anns : List Ann) : ∀ acc : List Mark,
    anns.foldl
      (fun acc objData =>
        match renderObjData objData pageWidth pageHeight with
        | .ok marks => acc ++ marks
        | .error _ => acc) acc
    = acc ++ (anns.map (fun a => okMarks (renderObjData a pageWidth pageHeight))).flatten := by
  induction anns with
  | nil => intro acc; simp
  | cons a t ih =>
    intro acc
    simp only [List.foldl_cons, List.map_cons, List.flatten_cons]
    rw [ih]
    cases h : renderObjData a pageWidth pageHeight <;> simp [okMarks, h]

/-- C4: the Orchestrator renders a page's annotations in order and catches
any exception raised by an individual one, continuing with the rest: its
output is the in-order concatenation of the non-throwing annotations'
marks (a thrown one contributes nothing), and on the concrete page
`[annGood1, annBad2, annGood3]` where the 2nd throws, the 1st and 3rd are
still rendered and `addAnnotationsToPage` (a total function — the
`try`/`catch` absorbs the exception) returns their marks. -/
theorem claim_C4 :
    (∀ (pageWidth pageHeight : ℚ) (anns : List Ann),
        addAnnotationsToPage pageWidth pageHeight anns
          = (anns.map (fun a => okMarks (renderObjData a pageWidth pageHeight))).flatten) ∧
    renderObjData annBad2 600 800 = .error "rgb: channel out of range" ∧
    addAnnotationsToPage 600 800 [annGood1, annBad2, annGood3]
      = addAnnotationsToPage 600 800 [annGood1] ++ addAnnotationsToPage 600 800 [annGood3] ∧
    addAnnotationsToPage 600 800 [annGood1] ≠ [] ∧
    addAnnotationsToPage 600 800 [annGood3] ≠ [] := by
  refine ⟨fun pw ph anns => addAnnFold pw ph anns [], ?_, ?_, ?_, ?_⟩
  · simp +decide [renderObjData, annBad2, addTextToPage, jsOrS, parseColor, hexChannel,
      jsParseIntHex, takeSign, takeHexDigits, hexVal, strSlice, listTrim, rgbE,
      Bind.bind, Except.bind]
  · simp +decide [addAnnotationsToPage, renderObjData, annGood1, annBad2, annGood3,
      addTextToPage, jsOrS, jsOrQ, parseColor, hexChannel, jsParseIntHex, takeSign,
      takeHexDigits, hexVal, strSlice, listTrim, rgbE, actualFontSize, Bind.bind, Except.bind]
  · simp +decide [addAnnotationsToPage, renderObjData, annGood1, addTextToPage, jsOrS, jsOrQ,
      parseColor, hexChannel, jsParseIntHex, takeSign, takeHexDigits, hexVal, strSlice,
      listTrim, rgbE, actualFontSize, Bind.bind, Except.bind]
  · simp +decide [addAnnotationsToPage, renderObjData, annGood3, addTextToPage, jsOrS, jsOrQ,
      parseColor, hexChannel, jsParseIntHex, takeSign, takeHexDigits, hexVal, strSlice,
      listTrim, rgbE, actualFontSize, Bind.bind, Except.bind]

/-- C5: the rendered font size is `baseFontSize × ((manualScaleX +
manualScaleY) / 2)` clamped to `[6, 72]` (when the manual scales are
present and truthy — absent ones fall back to `scaleX`/`scaleY`, then `1`);
every mark `addTextToPage` emits carries exactly that size; the size never
leaves `[6, 72]` for any input; `baseFontSize = 100` with unit manual
scales renders at exactly 72 and `baseFontSize = 1` at exactly 6. -/
theorem claim_C5 :
    (∀ (textData : Ann) (sx sy : ℚ), textData.manualScaleX = some sx → sx ≠ 0 →
        textData.manualScaleY = some sy → sy ≠ 0 →
        actualFontSize textData
          = max 6 (min 72 (jsOrQ textData.fontSize 20 * ((sx + sy) / 2)))) ∧
    (∀ textData : Ann, 6 ≤ actualFontSize textData ∧ actualFontSize textData ≤ 72) ∧
    (∀ (textData : Ann) (pageHeight : ℚ) (marks : List Mark),
        addTextToPage textData pageHeight = .ok marks →
        ∀ m ∈ marks, markSize m = some (actualFontSize textData)) ∧
    actualFontSize tdMax = 72 ∧
    actualFontSize tdMin = 6 := by
  refine ⟨?_, ?_, ?_, ?_, ?_⟩
  · intro td sx sy h1 h2 h3 h4
    simp [actualFontSize, jsOrQ, h1, h2, h3, h4]
  · intro td
    exact ⟨le_max_left 6 _, max_le (by norm_num) (min_le_left 72 _)⟩
  · intro td ph marks h m hm
    unfold addTextToPage at h
    dsimp only at h
    split at h
    · injection h with h'
      subst h'
      simp at hm
    · cases hr : rgbE (parseColor (jsOrS td.fill "#000000")).1
        (parseColor (jsOrS td.fill "#000000")).2.1 (parseColor (jsOrS td.fill "#000000")).2.2 with
      | error e => simp [Bind.bind, Except.bind, hr] at h
      | ok c =>
        simp [Bind.bind, Except.bind, hr] at h
        subst h
        simp at hm
        subst hm
        rfl
  · norm_num [actualFontSize, tdMax, jsOrQ, min_def, max_def]
  · norm_num [actualFontSize, tdMin, jsOrQ, min_def, max_def]

/-- The single mark `addTextToPage` emits for `tdW` on a height-800 page. -/
def msW : List Mark := [Mark.text 0 (18434 / 25) 72 ⟨0, 0, 0⟩ "hi"]

/-- Witness for C5 at `tdW` (`fontSize = 30`, manual scales 2 and 4): the
formula instance, the clamp bounds, and the emitted mark's size. -/
theorem claim_C5_witness :
    actualFontSize tdW = max 6 (min 72 (jsOrQ tdW.fontSize 20 * ((2 + 4) / 2))) ∧
    (6 ≤ actualFontSize tdW ∧ actualFontSize tdW ≤ 72) ∧
    (∀ m ∈ msW, markSize m = some (actualFontSize tdW)) :=
  ⟨claim_C5.1 tdW 2 4 rfl (by norm_num) rfl (by norm_num),
   claim_C5.2.1 tdW,
   claim_C5.2.2.1 tdW 800 msW (by
     simp +decide [addTextToPage, tdW, msW, jsOrS, jsOrQ, parseColor, hexChannel,
       jsParseIntHex, takeSign, takeHexDigits, hexVal, strSlice, listTrim, rgbE,
       actualFontSize, Bind.bind, Except.bind, min_def, max_def]
     norm_num)⟩

/-- Counterexample to C6 as stated: an image of actual width 200 on a page
of width 100, placed at `left = 100`, is clamped to `x = 0`, yet its
footprint `x + width = 200` does not stay within `[0, pageWidth]` — the
full width does not fit, contradicting both the containment claim and the
"left edge clamped so the full width fits" claim. -/
theorem claim_C6_counterexample :
    (imagePlacement ceImage 100 100).1 = 0 ∧
    ¬ ((imagePlacement ceImage 100 100).1 + (imagePlacement ceImage 100 100).2.2.1 ≤ 100) := by
  constructor <;> norm_num [imagePlacement, ceImage, jsOrQ, min_def, max_def]

/-- C6 (amended): the draw position is clamped per axis via
`x := max(0, min(x, pageWidth − actualWidth))` and the `y` analogue, so the
clamped position is never negative, and whenever the footprint fits on an
axis (`actualWidth ≤ pageWidth`, resp. `actualHeight ≤ pageHeight`) the
whole footprint stays within that axis' bounds; an image that fits, placed
at `left = pageWidth`, gets its left edge clamped to
`pageWidth − actualWidth`, so the full width fits within `[0, pageWidth]`.
(An image wider than the page is instead anchored at `x = 0` and overflows
on the right, per the counterexample.) -/
theorem claim_C6 :
    (∀ (imageData : Ann) (pw ph : ℚ),
        0 ≤ (imagePlacement imageData pw ph).1 ∧ 0 ≤ (imagePlacement imageData pw ph).2.1) ∧
    (∀ (imageData : Ann) (pw ph : ℚ), (imagePlacement imageData pw ph).2.2.1 ≤ pw →
        (imagePlacement imageData pw ph).1 + (imagePlacement imageData pw ph).2.2.1 ≤ pw) ∧
    (∀ (imageData : Ann) (pw ph : ℚ), (imagePlacement imageData pw ph).2.2.2 ≤ ph →
        (imagePlacement imageData pw ph).2.1 + (imagePlacement imageData pw ph).2.2.2 ≤ ph) ∧
    (∀ (imageData : Ann) (pw ph : ℚ), imageData.left = some pw →
        0 ≤ (imagePlacement imageData pw ph).2.2.1 →
        (imagePlacement imageData pw ph).2.2.1 ≤ pw →
        (imagePlacement imageData pw ph).1 = pw - (imagePlacement imageData pw ph).2.2.1) := by
  refine ⟨?_, ?_, ?_, ?_⟩
  · intro d pw ph
    exact ⟨le_max_left 0 _, le_max_left 0 _⟩
  · intro d pw ph h
    simp only [imagePlacement] at h ⊢
    have : max 0 (min (jsOrQ d.left 0) (pw - jsOrQ d.width 120 * jsOrQ d.scaleX 1))
        ≤ pw - jsOrQ d.width 120 * jsOrQ d.scaleX 1 :=
      max_le (by linarith) (min_le_right _ _)
    linarith
  · intro d pw ph h
    simp only [imagePlacement] at h ⊢
    have : max 0 (min (ph - jsOrQ d.top 0 - jsOrQ d.height 60 * jsOrQ d.scaleY 1)
          (ph - jsOrQ d.height 60 * jsOrQ d.scaleY 1))
        ≤ ph - jsOrQ d.height 60 * jsOrQ d.scaleY 1 :=
      max_le (by linarith) (min_le_right _ _)
    linarith
  · intro d pw ph hl h0 hle
    simp only [imagePlacement] at h0 hle ⊢
    have hx : jsOrQ d.left 0 = pw := by
      rw [hl]
      simp only [jsOrQ]
      split_ifs with hz
      · exact hz.symm
      · rfl
    rw [hx, min_eq_right (by linarith), max_eq_right (by linarith)]

/-- Witness for C6 (amended) at `wImage` (width 50) on a 100×100 page:
the footprint stays on the page and the left edge lands at
`pageWidth − width = 50`. -/
theorem claim_C6_witness :
    (imagePlacement wImage 100 100).1 + (imagePlacement wImage 100 100).2.2.1 ≤ 100 ∧
    (imagePlacement wImage 100 100).1 = 100 - (imagePlacement wImage 100 100).2.2.1 :=
  ⟨claim_C6.2.1 wImage 100 100 (by norm_num [imagePlacement, wImage, jsOrQ]),
   claim_C6.2.2.2 wImage 100 100 rfl
     (by norm_num [imagePlacement, wImage, jsOrQ])
     (by norm_num [imagePlacement, wImage, jsOrQ])⟩

theorem hexVal_char_range {c : Char} {v : ℕ} (h : hexVal c = some v) :
    v ≤ 15 ∧ ((48 ≤ c.toNat ∧ c.toNat ≤ 57) ∨ (97 ≤ c.toNat ∧ c.toNat ≤ 102) ∨
      (65 ≤ c.toNat ∧ c.toNat ≤ 70)) := by
  by_cases c1 : (48 ≤ c.toNat && c.toNat ≤ 57) = true
  · rw [hexVal, if_pos c1] at h
    injection h with hv
    subst hv
    simp only [Bool.and_eq_true, decide_eq_true_eq] at c1
    omega
  · by_cases c2 : (97 ≤ c.toNat && c.toNat ≤ 102) = true
    · rw [hexVal, if_neg c1, if_pos c2] at h
      injection h with hv
      subst hv
      simp only [Bool.and_eq_true, decide_eq_true_eq] at c2
      omega
    · by_cases c3 : (65 ≤ c.toNat && c.toNat ≤ 70) = true
      · rw [hexVal, if_neg c1, if_neg c2, if_pos c3] at h
        injection h with hv
        subst hv
        simp only [Bool.and_eq_true, decide_eq_true_eq] at c3
        omega
      · rw [hexVal, if_neg c1, if_neg c2, if_neg c3] at h
        exact absurd h (by simp)

theorem hexVal_not_special {c : Char} {v : ℕ} (h : hexVal c = some v) :
    c.isWhitespace = false ∧ c ≠ '-' ∧ c ≠ '+' ∧ c ≠ 'x' ∧ c ≠ 'X' := by
  obtain ⟨-, hr⟩ := hexVal_char_range h
  refine ⟨?_, ?_, ?_, ?_, ?_⟩
  · by_contra hws
    rw [Bool.not_eq_false] at hws
    simp [Char.isWhitespace] at hws
    rcases hws with ((rfl | rfl) | rfl) | rfl <;> revert hr <;> decide
  all_goals (intro he; subst he; revert hr; decide)

theorem jsParseIntHex_pair {c1 c2 : Char} {v1 v2 : ℕ}
    (e1 : hexVal c1 = some v1) (e2 : hexVal c2 = some v2) :
    jsParseIntHex ⟨[c1, c2]⟩ = some ((16 * v1 + v2 : ℕ) : ℤ) := by
  obtain ⟨hws1, hm1, hp1, hx1, hX1⟩ := hexVal_not_special e1
  obtain ⟨-, -, -, hx2, hX2⟩ := hexVal_not_special e2
  unfold jsParseIntHex
  rw [show (String.mk [c1, c2]).data = [c1, c2] from rfl]
  rw [List.dropWhile_cons_of_neg (by simp [hws1])]
  dsimp only
  have hsign : takeSign [c1, c2] = (1, [c1, c2]) := by
    unfold takeSign
    split
    · next heq => exact absurd (by injection heq) hm1
    · next heq => exact absurd (by injection heq) hp1
    · rfl
  rw [hsign]
  have hpre : (match [c1, c2] with
      | '0' :: 'x' :: rest => rest
      | '0' :: 'X' :: rest => rest
      | rest => rest) = [c1, c2] := by
    split
    · next heq =>
        simp only [List.cons.injEq] at heq
        exact absurd heq.2.1 hx2
    · next heq =>
        simp only [List.cons.injEq] at heq
        exact absurd heq.2.1 hX2
    · rfl
  simp only [hpre]
  rw [show takeHexDigits [c1, c2] 0 0 = (16 * v1 + v2, 2, []) from by
    unfold takeHexDigits
    rw [e1]
    unfold takeHexDigits
    rw [e2]
    unfold takeHexDigits
    norm_num
    omega]
  norm_num

theorem hexChannel_pair {c1 c2 : Char} {v1 v2 : ℕ}
    (e1 : hexVal c1 = some v1) (e2 : hexVal c2 = some v2) :
    hexChannel ⟨[c1, c2]⟩ = some ((16 * (v1 : ℚ) + v2) / 255) := by
  rw [hexChannel, jsParseIntHex_pair e1 e2, Option.map_some']
  congr 1
  push_cast
  ring

/-- Counterexample to C7 as stated: the malformed string `"#zzzzzz"` is a
color-string input, but `parseColor` returns `NaN` channels (here `none`,
from `parseInt("zz", 16)`), not a float in `[0, 1]` and not black
`{0,0,0}`. -/
theorem claim_C7_counterexample :
    (parseColor "#zzzzzz").1 = none ∧ parseColor "#zzzzzz" ≠ blackColor := by
  constructor <;>
    simp +decide [parseColor, blackColor, hexChannel, jsParseIntHex, takeSign,
      takeHexDigits, hexVal, strSlice]

/-- C7 (amended): any color string not starting with `#` yields black
`{0,0,0}` without an error; a `#RRGGBB` string whose six digits are valid
hexadecimal yields each channel as the pair's integer value (0–255) divided
by 255, a value always within `[0, 1]`.  (A `#`-prefixed string with
invalid hex digits instead yields `NaN` channels, per the
counterexample.) -/
theorem claim_C7 :
    (∀ s : String, s.data.head? ≠ some '#' → parseColor s = blackColor) ∧
    (∀ (h1 h2 h3 h4 h5 h6 : Char) (v1 v2 v3 v4 v5 v6 : ℕ),
        hexVal h1 = some v1 → hexVal h2 = some v2 → hexVal h3 = some v3 →
        hexVal h4 = some v4 → hexVal h5 = some v5 → hexVal h6 = some v6 →
        parseColor ⟨['#', h1, h2, h3, h4, h5, h6]⟩ =
          (some ((16 * (v1 : ℚ) + v2) / 255), some ((16 * (v3 : ℚ) + v4) / 255),
           some ((16 * (v5 : ℚ) + v6) / 255)) ∧
        (∀ w1 w2 : ℕ, w1 ≤ 15 → w2 ≤ 15 →
          0 ≤ (16 * (w1 : ℚ) + w2) / 255 ∧ (16 * (w1 : ℚ) + w2) / 255 ≤ 1)) := by
  constructor
  · intro s hs
    unfold parseColor
    split
    · next heq => exact absurd (by rw [heq]; rfl) hs
    · rfl
  · intro h1 h2 h3 h4 h5 h6 v1 v2 v3 v4 v5 v6 e1 e2 e3 e4 e5 e6
    constructor
    · rw [show parseColor ⟨['#', h1, h2, h3, h4, h5, h6]⟩
            = (hexChannel ⟨[h1, h2]⟩, hexChannel ⟨[h3, h4]⟩, hexChannel ⟨[h5, h6]⟩) from rfl,
          hexChannel_pair e1 e2, hexChannel_pair e3 e4, hexChannel_pair e5 e6]
    · intro w1 w2 b1 b2
      constructor
      · positivity
      · rw [div_le_one (by norm_num)]
        have : (w1 : ℚ) ≤ 15 := by exact_mod_cast b1
        have : (w2 : ℚ) ≤ 15 := by exact_mod_cast b2
        linarith

/-- Witness for C7 (amended) at `"#ff8000"` (and `"red"` for the non-`#`
branch): channels `255/255`, `128/255`, `0/255`, all within `[0, 1]`. -/
theorem claim_C7_witness :
    parseColor ⟨['#', 'f', 'f', '8', '0', '0', '0']⟩ =
      (some ((16 * (15 : ℚ) + 15) / 255), some ((16 * (8 : ℚ) + 0) / 255),
       some ((16 * (0 : ℚ) + 0) / 255)) ∧
    (0 ≤ (16 * (15 : ℚ) + 15) / 255 ∧ (16 * (15 : ℚ) + 15) / 255 ≤ 1) ∧
    parseColor "red" = blackColor :=
  ⟨(claim_C7.2 'f' 'f' '8' '0' '0' '0' 15 15 8 0 0 0
      (by decide) (by decide) (by decide) (by decide) (by decide) (by decide)).1,
   (claim_C7.2 'f' 'f' '8' '0' '0' '0' 15 15 8 0 0 0
      (by decide) (by decide) (by decide) (by decide) (by decide) (by decide)).2 15 15
      (by norm_num) (by norm_num),
   claim_C7.1 "red" (by decide)⟩

theorem processPages_ok (pages : List (String × List Ann)) : ∀ d : Doc,
    pagesValidFor d pages →
    ∃ d' : Doc, processPages d pages = .ok d' ∧ d'.length = d.length := by
  induction pages with
  | nil => exact fun d _ => ⟨d, rfl, rfl⟩
  | cons p rest ih =>
    intro d hv
    obtain ⟨s, anns⟩ := p
    by_cases he : anns.isEmpty
    · rw [processPages, if_pos he]
      exact ih d (fun q hq hne => hv q (List.mem_cons_of_mem _ hq) hne)
    · obtain ⟨n, hn, hge, hlt⟩ :=
        hv (s, anns) (List.mem_cons_self _ _) (by simpa using he)
      rw [processPages, if_neg he, hn]
      simp only [Bind.bind, Except.bind]
      rw [getPage, dif_pos ⟨hge, hlt⟩]
      have hlen : ∀ pg : Page, (setPage d (n - 1) pg).length = d.length := by
        intro pg
        simp [setPage]
      obtain ⟨d', hd', hdl⟩ := ih (setPage d (n - 1)
          { d.get ⟨(n - 1).toNat, hlt⟩ with
            marks := (d.get ⟨(n - 1).toNat, hlt⟩).marks
              ++ addAnnotationsToPage (d.get ⟨(n - 1).toNat, hlt⟩).width
                   (d.get ⟨(n - 1).toNat, hlt⟩).height anns }) (by
        rw [pagesValidFor]
        intro q hq hne
        rw [hlen]
        exact hv q (List.mem_cons_of_mem _ hq) hne)
      exact ⟨d', hd', hdl.trans (hlen _)⟩

/-- C9: a document load/decrypt failure is fatal to the whole flattening
request — `savePdfWithChanges` propagates it as an explicit error and,
returning `Except.error`, produces no filesystem update (the
`{fileId}_filled.pdf` write happens only on the success path) — whereas
per-annotation errors are absorbed: with valid page keys the request
succeeds and writes the output no matter what the annotations contain. -/
theorem claim_C9 :
    (∀ (loadDoc : Bytes → Except String Doc) (saveDoc : Doc → Bytes)
        (fs : Fs) (fileId : String) (mods : Mods) (e : String),
        loadPdf fs fileId = .error e →
        savePdfWithChanges loadDoc saveDoc fs fileId mods = .error e) ∧
    (∀ (loadDoc : Bytes → Except String Doc) (saveDoc : Doc → Bytes)
        (fs : Fs) (fileId : String) (mods : Mods) (bytes : Bytes) (msg : String),
        loadPdf fs fileId = .ok bytes → loadDoc bytes = .error msg →
        savePdfWithChanges loadDoc saveDoc fs fileId mods =
          .error ("Unable to process PDF: " ++ msg)) ∧
    (∀ (loadDoc : Bytes → Except String Doc) (saveDoc : Doc → Bytes)
        (fs : Fs) (fileId : String) (mods : Mods) (bytes : Bytes) (doc : Doc),
        loadPdf fs fileId = .ok bytes → loadDoc bytes = .ok doc →
        pagesValidFor doc mods.pages →
        ∃ doc' : Doc, processPages doc mods.pages = .ok doc' ∧
          savePdfWithChanges loadDoc saveDoc fs fileId mods =
            .ok (fs.write (fileId ++ "_filled.pdf") (saveDoc doc'), fileId ++ "_filled")) := by
  refine ⟨?_, ?_, ?_⟩
  · intro loadDoc saveDoc fs fileId mods e h
    simp [savePdfWithChanges, h, Bind.bind, Except.bind]
  · intro loadDoc saveDoc fs fileId mods bytes msg h1 h2
    simp [savePdfWithChanges, h1, h2, Bind.bind, Except.bind, Except.mapError]
  · intro loadDoc saveDoc fs fileId mods bytes doc h1 h2 hv
    obtain ⟨doc', hp, hl⟩ := processPages_ok mods.pages doc hv
    exact ⟨doc', hp, by
      simp [savePdfWithChanges, h1, h2, hp, Bind.bind, Except.bind, Except.mapError]⟩

/-- Witness for C9: a parse failure on a stored file propagates as
`"Unable to process PDF: …"`, and a well-keyed request on a one-page
document succeeds and writes `f_filled.pdf`. -/
theorem claim_C9_witness :
    savePdfWithChanges (fun _ => .error "enc") (fun _ => []) ⟨[("f.pdf", [7])]⟩ "f" ⟨[]⟩ =
      .error ("Unable to process PDF: " ++ "enc") ∧
    (∃ doc' : Doc, processPages [⟨100, 100, []⟩] [("1", [annGood1])] = .ok doc' ∧
      savePdfWithChanges (fun _ => .ok [⟨100, 100, []⟩]) (fun _ => [9])
          ⟨[("f.pdf", [7])]⟩ "f" ⟨[("1", [annGood1])]⟩ =
        .ok ((Fs.mk [("f.pdf", [7])]).write ("f" ++ "_filled.pdf") [9], "f" ++ "_filled")) :=
  ⟨claim_C9.2.1 (fun _ => .error "enc") (fun _ => []) ⟨[("f.pdf", [7])]⟩ "f" ⟨[]⟩ [7] "enc"
      (by simp [loadPdf, Fs.lookup, List.find?]) rfl,
   claim_C9.2.2 (fun _ => .ok [⟨100, 100, []⟩]) (fun _ => [9])
      ⟨[("f.pdf", [7])]⟩ "f" ⟨[("1", [annGood1])]⟩ [7] [⟨100, 100, []⟩]
      (by simp [loadPdf, Fs.lookup, List.find?]) rfl
      (by
        intro p hp hne
        simp at hp
        subst hp
        exact ⟨1, by decide, by decide, by decide⟩)⟩

theorem fsWriteLookup (fs : Fs) (p : String) (b : Bytes) :
    (fs.write p b).lookup p = some b := by
  simp [Fs.lookup, Fs.write, List.find?]

/-- C10: `loadPdf` returns the bytes of `{fileId}_filled.pdf` whenever that
file exists and falls back to `{fileId}.pdf` only when it is absent; every
successful `savePdfWithChanges` writes `{fileId}_filled.pdf`, so a later
`loadPdf` — and hence a second `savePdfWithChanges` on the same `fileId`,
whose first step is `loadPdf` — starts from the previously flattened
output, not the original document. -/
theorem claim_C10 :
    (∀ (fs : Fs) (fileId : String) (b : Bytes),
        fs.lookup (fileId ++ "_filled.pdf") = some b → loadPdf fs fileId = .ok b) ∧
    (∀ (fs : Fs) (fileId : String) (b : Bytes),
        fs.lookup (fileId ++ "_filled.pdf") = none →
        fs.lookup (fileId ++ ".pdf") = some b → loadPdf fs fileId = .ok b) ∧
    (∀ (loadDoc : Bytes → Except String Doc) (saveDoc : Doc → Bytes)
        (fs : Fs) (fileId : String) (mods : Mods) (fs' : Fs) (r : String),
        savePdfWithChanges loadDoc saveDoc fs fileId mods = .ok (fs', r) →
        ∃ (bytes : Bytes) (doc doc' : Doc),
          loadPdf fs fileId = .ok bytes ∧ loadDoc bytes = .ok doc ∧
          processPages doc mods.pages = .ok doc' ∧
          fs' = fs.write (fileId ++ "_filled.pdf") (saveDoc doc') ∧
          r = fileId ++ "_filled" ∧
          loadPdf fs' fileId = .ok (saveDoc doc')) := by
  refine ⟨?_, ?_, ?_⟩
  · intro fs fileId b h
    rw [loadPdf, h]
  · intro fs fileId b h1 h2
    rw [loadPdf, h1, h2]
  · intro loadDoc saveDoc fs fileId mods fs' r h
    unfold savePdfWithChanges at h
    cases h1 : loadPdf fs fileId with
    | error e => simp [h1, Bind.bind, Except.bind] at h
    | ok bytes =>
      cases h2 : loadDoc bytes with
      | error m => simp [h1, h2, Bind.bind, Except.bind, Except.mapError] at h
      | ok doc =>
        cases h3 : processPages doc mods.pages with
        | error m => simp [h1, h2, h3, Bind.bind, Except.bind, Except.mapError] at h
        | ok doc' =>
          simp [h1, h2, h3, Bind.bind, Except.bind, Except.mapError] at h
          refine ⟨bytes, doc, doc', rfl, h2, h3, h.1.symm, h.2.symm, ?_⟩
          have hfl : fs'.lookup (fileId ++ "_filled.pdf") = some (saveDoc doc') := by
            rw [← h.1]
            exact fsWriteLookup fs (fileId ++ "_filled.pdf") (saveDoc doc')
          rw [loadPdf, hfl]

/-- Witness for C10: with both `g_filled.pdf` and `g.pdf` present, `loadPdf`
returns the filled bytes; and a concrete successful save on `h.pdf`
satisfies the full characterization, including that a subsequent `loadPdf`
reads the just-written flattened output. -/
theorem claim_C10_witness :
    loadPdf ⟨[("g_filled.pdf", [1]), ("g.pdf", [0])]⟩ "g" = .ok [1] ∧
    (∃ (bytes : Bytes) (doc doc' : Doc),
        loadPdf ⟨[("h.pdf", [2])]⟩ "h" = .ok bytes ∧
        (fun _ : Bytes => (Except.ok [] : Except String Doc)) bytes = .ok doc ∧
        processPages doc (Mods.mk []).pages = .ok doc' ∧
        (Fs.mk [("h.pdf", [2])]).write ("h" ++ "_filled.pdf") [9] =
          (Fs.mk [("h.pdf", [2])]).write ("h" ++ "_filled.pdf")
            ((fun _ : Doc => ([9] : Bytes)) doc') ∧
        ("h" ++ "_filled" : String) = "h" ++ "_filled" ∧
        loadPdf ((Fs.mk [("h.pdf", [2])]).write ("h" ++ "_filled.pdf") [9]) "h" =
          .ok ((fun _ : Doc => ([9] : Bytes)) doc')) :=
  ⟨claim_C10.1 ⟨[("g_filled.pdf", [1]), ("g.pdf", [0])]⟩ "g" [1]
      (by simp [Fs.lookup, List.find?]),
   claim_C10.2.2 (fun _ => .ok []) (fun _ => [9]) ⟨[("h.pdf", [2])]⟩ "h" ⟨[]⟩
      ((Fs.mk [("h.pdf", [2])]).write ("h" ++ "_filled.pdf") [9]) ("h" ++ "_filled")
      (by simp [savePdfWithChanges, loadPdf, Fs.lookup, List.find?, processPages,
        Bind.bind, Except.bind, Except.mapError])⟩

end PdfService

